import Mathlib

/-!
Shallow embedding of `GrafanaWeatherApp.py`: a weather exporter that polls an
HTTP weather API, maps the JSON response into a fixed record of fields, and
republishes the values as labelled Prometheus gauges in an infinite loop.

Python numbers are modelled as `Rat`, JSON documents as an inductive `Json`
tree, Python dicts as association lists, the Prometheus gauges as partial maps
from the label value to the last value set, and the loop body as a state
transformer that can also crash (`Except`), mirroring an uncaught exception.
-/

namespace GrafanaWeatherApp

/-- A JSON value as produced by `response.json()`. -/
inductive Json where
  | null
  | bool (b : Bool)
  | num (v : Rat)
  | str (s : String)
  | arr (elems : List Json)
  | obj (fields : List (String × Json))

/-- Python `data[k]` on a parsed JSON value: succeeds only when `data` is a
dict containing the key; a missing key raises `KeyError` and subscripting a
non-dict raises `TypeError` (both are caught by the fetcher's `except`). -/
def Json.getKey : Json → String → Except String Json
  | .obj fields, k =>
    match fields.lookup k with
    | some v => Except.ok v
    | none => Except.error ("KeyError: " ++ k)
  | _, k => Except.error ("TypeError: subscript " ++ k ++ " on non-dict")

/-- Python `data.get(k, default)`: needs `data` to be a dict (otherwise
`AttributeError`), and returns `default` when the key is absent. -/
def Json.getDefault : Json → String → Json → Except String Json
  | .obj fields, k, d => Except.ok ((fields.lookup k).getD d)
  | _, k, _ => Except.error ("AttributeError: get " ++ k ++ " on non-dict")

/-- The state of `WeatherDataFetcher` (its four constructor arguments). -/
structure WeatherDataFetcher where
  api_key : String
  base_url : String
  city : String
  country : String

/-- An outgoing HTTP request as `requests.get(url, params=params)` issues it.
`timeout` is the request timeout in seconds; `requests.get` without a
`timeout` argument uses `none` (wait forever). -/
structure HttpRequest where
  url : String
  params : List (String × String)
  timeout : Option Nat

/-- The single request built by `fetch_weather_data` (lines 47–53): query
parameters `q = "<city>,<country>"`, `appid`, `units = "metric"`; no
`timeout` keyword is passed to `requests.get`. -/
def buildRequest (f : WeatherDataFetcher) : HttpRequest :=
  { url := f.base_url
    params := [("q", f.city ++ "," ++ f.country), ("appid", f.api_key), ("units", "metric")]
    timeout := none }

/-- What the environment answers to the one request of a fetch attempt:
either the connection fails (timeout, DNS, refused, ...), or a response
arrives with a status code and a body whose JSON parse succeeds or fails. -/
inductive HttpEvent where
  | networkFailure (msg : String)
  | response (status : Nat) (body : Except String Json)

/-- Model of `requests.Response.raise_for_status`: raises `HTTPError` exactly for
client errors (4xx) and server errors (5xx); all other statuses pass. -/
def raise_for_status (status : Nat) : Except String Unit :=
  if 400 ≤ status ∧ status < 600 then
    Except.error ("HTTPError: " ++ toString status)
  else
    Except.ok ()

/-- The dict literal of lines 56–69, keyed exactly as in the source. -/
def sampleList (temperature humidity pressure wind_speed feels_like visibility
    wind_direction clouds rain_1h snow_1h sunrise sunset : Json) :
    List (String × Json) :=
  [("temperature", temperature), ("humidity", humidity), ("pressure", pressure),
   ("wind_speed", wind_speed), ("feels_like", feels_like), ("visibility", visibility),
   ("wind_direction", wind_direction), ("clouds", clouds), ("rain_1h", rain_1h),
   ("snow_1h", snow_1h), ("sunrise", sunrise), ("sunset", sunset)]

/-- Building the returned dict from the parsed body `data`, in the source's
evaluation order; any raised `KeyError`/`TypeError`/`AttributeError`
propagates (to the enclosing `except`). `rain.1h` and `snow.1h` fall back to
`0` when absent (`data.get("rain", {}).get("1h", 0)`). -/
def extract_sample (data : Json) : Except String (List (String × Json)) := do
  let temperature ← data.getKey "main" >>= (Json.getKey · "temp")
  let humidity ← data.getKey "main" >>= (Json.getKey · "humidity")
  let pressure ← data.getKey "main" >>= (Json.getKey · "pressure")
  let wind_speed ← data.getKey "wind" >>= (Json.getKey · "speed")
  let feels_like ← data.getKey "main" >>= (Json.getKey · "feels_like")
  let visibility ← data.getKey "visibility"
  let wind_direction ← data.getKey "wind" >>= (Json.getKey · "deg")
  let clouds ← data.getKey "clouds" >>= (Json.getKey · "all")
  let rain_1h ← data.getDefault "rain" (Json.obj []) >>= (Json.getDefault · "1h" (Json.num 0))
  let snow_1h ← data.getDefault "snow" (Json.obj []) >>= (Json.getDefault · "1h" (Json.num 0))
  let sunrise ← data.getKey "sys" >>= (Json.getKey · "sunrise")
  let sunset ← data.getKey "sys" >>= (Json.getKey · "sunset")
  pure (sampleList temperature humidity pressure wind_speed feels_like visibility
    wind_direction clouds rain_1h snow_1h sunrise sunset)

/-- A log record. The constructors carry the level and the payload of the four
log statements the program can emit. -/
inductive LogEntry where
  | error (msg : String)
  | infoServerStarted (port : Int)
  | infoFetched (data : List (String × Json))
  | warningFailed

/-- Model of `WeatherDataFetcher.fetch_weather_data` (lines 46–72): issue the single
GET (the environment's answer is `env`), `raise_for_status`, parse JSON,
build the dict; any exception along the way is caught, logged once at ERROR
with the cause, and turned into `None`. The function never raises. -/
def fetch_weather_data (_f : WeatherDataFetcher) (env : HttpEvent) :
    Option (List (String × Json)) × List LogEntry :=
  match env with
  | .networkFailure msg =>
      (none, [LogEntry.error ("Failed to fetch weather data: " ++ msg)])
  | .response status body =>
      match raise_for_status status with
      | .error e => (none, [LogEntry.error ("Failed to fetch weather data: " ++ e)])
      | .ok _ =>
          match body with
          | .error e => (none, [LogEntry.error ("Failed to fetch weather data: " ++ e)])
          | .ok data =>
              match extract_sample data with
              | .error e => (none, [LogEntry.error ("Failed to fetch weather data: " ++ e)])
              | .ok sample => (some sample, [])

/-- The ten labelled gauges of `PrometheusMetrics` plus the configured city.
Each gauge maps a `city` label value to the last value set for that label
(`none` when never set). -/
structure PrometheusMetrics where
  temperature_gauge : String → Option Json
  humidity_gauge : String → Option Json
  pressure_gauge : String → Option Json
  wind_speed_gauge : String → Option Json
  wind_direction_gauge : String → Option Json
  clouds_gauge : String → Option Json
  visibility_gauge : String → Option Json
  rain_gauge : String → Option Json
  snow_gauge : String → Option Json
  feels_like_gauge : String → Option Json
  city : String

/-- Model of `PrometheusMetrics.__init__` (lines 77–88): fresh gauges with no series
set yet. -/
def PrometheusMetrics.init (city : String) : PrometheusMetrics :=
  { temperature_gauge := fun _ => none
    humidity_gauge := fun _ => none
    pressure_gauge := fun _ => none
    wind_speed_gauge := fun _ => none
    wind_direction_gauge := fun _ => none
    clouds_gauge := fun _ => none
    visibility_gauge := fun _ => none
    rain_gauge := fun _ => none
    snow_gauge := fun _ => none
    feels_like_gauge := fun _ => none
    city := city }

/-- Model of `gauge.labels(city=label).set(v)`: overwrite the series for `label`. -/
def gaugeSet (g : String → Option Json) (label : String) (v : Json) :
    String → Option Json :=
  fun l => if l = label then some v else g l

/-- Python `data[k]` on the sample dict. -/
def dictGet (d : List (String × Json)) (k : String) : Except String Json :=
  match d.lookup k with
  | some v => Except.ok v
  | none => Except.error ("KeyError: " ++ k)

/-- One line of `update_metrics`: if an earlier line already raised, nothing
more runs; otherwise look the key up (a missing key raises and stops the
method with the gauges set so far) and set the gauge. -/
def setGaugeStep (data : List (String × Json)) (key : String)
    (upd : PrometheusMetrics → Json → PrometheusMetrics) :
    PrometheusMetrics × Option String → PrometheusMetrics × Option String
  | (m, some e) => (m, some e)
  | (m, none) =>
      match dictGet data key with
      | .ok v => (upd m v, none)
      | .error e => (m, some e)

/-- Model of `PrometheusMetrics.update_metrics` (lines 90–100): set each gauge's
`city`-labelled series to the corresponding entry of `data`, in source
order. The second component is the uncaught exception, if one was raised. -/
def update_metrics (m : PrometheusMetrics) (data : List (String × Json)) :
    PrometheusMetrics × Option String :=
  (m, none)
  |> setGaugeStep data "temperature"
      (fun m v => { m with temperature_gauge := gaugeSet m.temperature_gauge m.city v })
  |> setGaugeStep data "humidity"
      (fun m v => { m with humidity_gauge := gaugeSet m.humidity_gauge m.city v })
  |> setGaugeStep data "pressure"
      (fun m v => { m with pressure_gauge := gaugeSet m.pressure_gauge m.city v })
  |> setGaugeStep data "wind_speed"
      (fun m v => { m with wind_speed_gauge := gaugeSet m.wind_speed_gauge m.city v })
  |> setGaugeStep data "wind_direction"
      (fun m v => { m with wind_direction_gauge := gaugeSet m.wind_direction_gauge m.city v })
  |> setGaugeStep data "clouds"
      (fun m v => { m with clouds_gauge := gaugeSet m.clouds_gauge m.city v })
  |> setGaugeStep data "visibility"
      (fun m v => { m with visibility_gauge := gaugeSet m.visibility_gauge m.city v })
  |> setGaugeStep data "rain_1h"
      (fun m v => { m with rain_gauge := gaugeSet m.rain_gauge m.city v })
  |> setGaugeStep data "snow_1h"
      (fun m v => { m with snow_gauge := gaugeSet m.snow_gauge m.city v })
  |> setGaugeStep data "feels_like"
      (fun m v => { m with feels_like_gauge := gaugeSet m.feels_like_gauge m.city v })

/-- The state visible to a scrape of the exporter while the monitor runs:
the gauge registry and the log file's entries. -/
structure MonitorState where
  metrics : PrometheusMetrics
  logs : List LogEntry

/-- Digit run of Python `int()`: accumulate decimal digits, failing on any
non-digit character. -/
def goDigits : List Char → Nat → Option Nat
  | [], acc => some acc
  | c :: cs, acc => if c.isDigit then goDigits cs (10 * acc + (c.toNat - 48)) else none

/-- Python `int(s)` on an optionally signed decimal string (the shape a
configparser value has); `none` models the raised `ValueError`. -/
def parsePyInt (s : String) : Option Int :=
  match s.toList with
  | '-' :: c :: cs => (goDigits (c :: cs) 0).map (fun n => -(n : Int))
  | '+' :: c :: cs => (goDigits (c :: cs) 0).map (fun n => (n : Int))
  | c :: cs => (goDigits (c :: cs) 0).map (fun n => (n : Int))
  | [] => none

/-- Python `int(s)` on the configparser string, and then `time.sleep(n)`,
which raises `ValueError` when `n` is negative. Returns the slept seconds. -/
def sleep_interval (scrape_interval : String) : Except String Int :=
  match parsePyInt scrape_interval with
  | none => Except.error "ValueError: invalid literal for int()"
  | some n =>
      if n < 0 then Except.error "ValueError: sleep length must be non-negative"
      else Except.ok n

/-- One iteration of the `while True` body of `WeatherMonitor.start`
(lines 133–140): fetch; if the result is truthy, log INFO with the sample and
update the gauges; otherwise log a WARNING; then `time.sleep(int(...))`.
An exception raised by `update_metrics` or by the sleep is uncaught: the
iteration (and with it the process) crashes, modelled as `Except.error`.
On success, returns the new state and the seconds slept. -/
def run_cycle (f : WeatherDataFetcher) (scrape_interval : String)
    (env : HttpEvent) (st : MonitorState) : Except String (MonitorState × Int) :=
  let fetched := fetch_weather_data f env
  let st1 : MonitorState := { st with logs := st.logs ++ fetched.2 }
  let afterBranch : Except String MonitorState :=
    match fetched.1 with
    | some d =>
        if d.isEmpty then
          Except.ok { st1 with logs := st1.logs ++ [LogEntry.warningFailed] }
        else
          let st2 := { st1 with logs := st1.logs ++ [LogEntry.infoFetched d] }
          match update_metrics st2.metrics d with
          | (_, some e) => Except.error e
          | (m, none) => Except.ok { st2 with metrics := m }
    | none => Except.ok { st1 with logs := st1.logs ++ [LogEntry.warningFailed] }
  match afterBranch with
  | .error e => Except.error e
  | .ok st2 =>
      match sleep_interval scrape_interval with
      | .error e => Except.error e
      | .ok n => Except.ok (st2, n)

/-- Finitely many iterations of the loop, one `HttpEvent` per cycle. -/
def run_cycles (f : WeatherDataFetcher) (scrape_interval : String) :
    List HttpEvent → MonitorState → Except String MonitorState
  | [], st => Except.ok st
  | env :: rest, st =>
      match run_cycle f scrape_interval env st with
      | .error e => Except.error e
      | .ok (st', _) => run_cycles f scrape_interval rest st'

/-- The prefix of `WeatherMonitor.start` before the loop (lines 130–131):
`start_http_server(int(self.prometheus_port))` — crashing when the port
string is not an integer — then the startup INFO log. The gauges start as
the cold registry built in `WeatherMonitor.__init__`. -/
def monitor_start (city port : String) : Except String MonitorState :=
  match parsePyInt port with
  | none => Except.error "ValueError: invalid literal for int()"
  | some p =>
      Except.ok { metrics := PrometheusMetrics.init city
                  logs := [LogEntry.infoServerStarted p] }

/-- A parsed configuration file: named sections of key/value pairs.
`none` at the `load_configuration` boundary models an unreadable file. -/
structure ConfigFile where
  sections : List (String × List (String × String))

/-- The configuration values `WeatherMonitor.__init__` extracts, in the
shape it keeps them: configparser hands every value over as a string, and
`port` and `scrape_interval` stay strings until `start` converts them. -/
structure Configuration where
  api_key : String
  base_url : String
  city : String
  country : String
  port : String
  scrape_interval : String
  log_file : String
  log_level : String

/-- Model of `configparser.ConfigParser.read`: it silently skips a missing or unreadable
file, leaving the parser with no sections. -/
def readConfigFile (file : Option ConfigFile) : ConfigFile :=
  file.getD ⟨[]⟩

/-- Section access `parser[section]`: `KeyError` when the section is absent. -/
def sectionGet (cf : ConfigFile) (name : String) :
    Except String (List (String × String)) :=
  match cf.sections.lookup name with
  | some s => Except.ok s
  | none => Except.error ("KeyError: " ++ name)

/-- Key access `section[key]`: `KeyError` when the key is absent. -/
def keyGet (s : List (String × String)) (k : String) : Except String String :=
  match s.lookup k with
  | some v => Except.ok v
  | none => Except.error ("KeyError: " ++ k)

/-- Model of `WeatherConfig.__init__` followed by the three `get_*_config` calls of
`WeatherMonitor.__init__` (lines 10–36 and 106–120): look up the three
sections, then each required key, in source order; a missing section or key
raises and no configuration is produced. No defaults, no conversions. -/
def load_configuration (file : Option ConfigFile) : Except String Configuration := do
  let cf := readConfigFile file
  let weather_api ← sectionGet cf "WeatherAPI"
  let prometheus ← sectionGet cf "Prometheus"
  let logging_section ← sectionGet cf "Logging"
  let api_key ← keyGet weather_api "api_key"
  let base_url ← keyGet weather_api "base_url"
  let city ← keyGet weather_api "city"
  let country ← keyGet weather_api "country"
  let port ← keyGet prometheus "port"
  let scrape_interval ← keyGet prometheus "scrape_interval"
  let log_file ← keyGet logging_section "log_file"
  let log_level ← keyGet logging_section "log_level"
  pure { api_key := api_key, base_url := base_url, city := city, country := country,
         port := port, scrape_interval := scrape_interval,
         log_file := log_file, log_level := log_level }

/-! ### Helper lemmas -/

/-- Inversion for `Except` bind. -/
theorem except_bind_ok {α β : Type} {a : Except String α} {f : α → Except String β}
    {b : β} : (a >>= f) = Except.ok b ↔ ∃ x, a = Except.ok x ∧ f x = Except.ok b := by
  cases a <;> simp [Bind.bind, Except.bind]

/-- A successful `extract_sample` returns exactly the twelve-entry dict
literal of the source. -/
theorem extract_sample_shape {data : Json} {l : List (String × Json)}
    (h : extract_sample data = Except.ok l) :
    ∃ t hu p ws fl vis wd cl r s sr ss,
      l = sampleList t hu p ws fl vis wd cl r s sr ss := by
  simp only [extract_sample, except_bind_ok, pure, Except.pure, Except.ok.injEq] at h
  obtain ⟨t, -, hu, -, p, -, ws, -, fl, -, vis, -, wd, -, cl, -, r, -, s, -, sr, -, ss, -, hl⟩ := h
  exact ⟨t, hu, p, ws, fl, vis, wd, cl, r, s, sr, ss, hl.symm⟩

/-- Running `update_metrics` on the dict literal produced by the fetcher: every
lookup succeeds, no exception is raised, and each of the ten gauges is
overwritten at the configured city label with the corresponding value;
`sunrise` and `sunset` are not written anywhere. -/
theorem update_metrics_sample (m : PrometheusMetrics)
    (t hu p ws fl vis wd cl r s sr ss : Json) :
    update_metrics m (sampleList t hu p ws fl vis wd cl r s sr ss) =
      (⟨gaugeSet m.temperature_gauge m.city t,
        gaugeSet m.humidity_gauge m.city hu,
        gaugeSet m.pressure_gauge m.city p,
        gaugeSet m.wind_speed_gauge m.city ws,
        gaugeSet m.wind_direction_gauge m.city wd,
        gaugeSet m.clouds_gauge m.city cl,
        gaugeSet m.visibility_gauge m.city vis,
        gaugeSet m.rain_gauge m.city r,
        gaugeSet m.snow_gauge m.city s,
        gaugeSet m.feels_like_gauge m.city fl,
        m.city⟩, none) := rfl

/-- A fetch that produced a sample produced exactly the twelve-entry dict
literal. -/
theorem fetch_some_shape {f : WeatherDataFetcher} {env : HttpEvent}
    {d : List (String × Json)} (h : (fetch_weather_data f env).1 = some d) :
    ∃ t hu p ws fl vis wd cl r s sr ss,
      d = sampleList t hu p ws fl vis wd cl r s sr ss := by
  cases env with
  | networkFailure msg => simp [fetch_weather_data] at h
  | response status body =>
      unfold fetch_weather_data at h
      dsimp only at h
      cases hrs : raise_for_status status with
      | error e => rw [hrs] at h; simp at h
      | ok u =>
          rw [hrs] at h; dsimp only at h
          cases body with
          | error e => simp at h
          | ok data =>
              dsimp only at h
              cases hex : extract_sample data with
              | error e => rw [hex] at h; simp at h
              | ok sample =>
                  rw [hex] at h
                  simp only [Option.some.injEq] at h
                  exact h ▸ extract_sample_shape hex

/-- A cycle whose fetch produced no sample only appends log entries: the
gauges are untouched and the loop survives. -/
theorem run_cycle_fetch_none {f : WeatherDataFetcher} {i : String} {env : HttpEvent}
    {st : MonitorState} {n : Int} (hn : sleep_interval i = Except.ok n)
    (h : (fetch_weather_data f env).1 = none) :
    run_cycle f i env st =
      Except.ok (⟨st.metrics,
        (st.logs ++ (fetch_weather_data f env).2) ++ [LogEntry.warningFailed]⟩, n) := by
  unfold run_cycle
  dsimp only
  rw [h, hn]

/-- A cycle whose fetch produced a sample logs the INFO entry, updates the
gauges with `update_metrics`, sleeps, and does not crash. -/
theorem run_cycle_fetch_some {f : WeatherDataFetcher} {i : String} {env : HttpEvent}
    {st : MonitorState} {n : Int} {d : List (String × Json)}
    (hn : sleep_interval i = Except.ok n)
    (h : (fetch_weather_data f env).1 = some d) :
    run_cycle f i env st =
      Except.ok (⟨(update_metrics st.metrics d).1,
        (st.logs ++ (fetch_weather_data f env).2) ++ [LogEntry.infoFetched d]⟩, n) := by
  obtain ⟨t, hu, p, ws, fl, vis, wd, cl, r, s, sr, ss, hd⟩ := fetch_some_shape h
  subst hd
  unfold run_cycle
  dsimp only
  rw [h, hn, update_metrics_sample]
  rfl

/-- With a well-formed scrape interval, no number of loop iterations can
crash, whatever the fetch outcomes are. -/
theorem run_cycles_no_crash {f : WeatherDataFetcher} {i : String} {n : Int}
    (hn : sleep_interval i = Except.ok n) :
    ∀ (envs : List HttpEvent) (st : MonitorState),
      ∃ st', run_cycles f i envs st = Except.ok st' := by
  intro envs
  induction envs with
  | nil => exact fun st => ⟨st, rfl⟩
  | cons env rest ih =>
      intro st
      cases hf : (fetch_weather_data f env).1 with
      | none =>
          obtain ⟨st', hst'⟩ := ih ⟨st.metrics,
            (st.logs ++ (fetch_weather_data f env).2) ++ [LogEntry.warningFailed]⟩
          exact ⟨st', by rw [run_cycles, run_cycle_fetch_none hn hf]; exact hst'⟩
      | some d =>
          obtain ⟨st', hst'⟩ := ih ⟨(update_metrics st.metrics d).1,
            (st.logs ++ (fetch_weather_data f env).2) ++ [LogEntry.infoFetched d]⟩
          exact ⟨st', by rw [run_cycles, run_cycle_fetch_some hn hf]; exact hst'⟩

/-- When every cycle's fetch fails, the gauges after any number of cycles
are exactly the gauges before. -/
theorem run_cycles_frame {f : WeatherDataFetcher} {i : String} {n : Int}
    (hn : sleep_interval i = Except.ok n) :
    ∀ (envs : List HttpEvent) (st : MonitorState),
      (∀ env ∈ envs, (fetch_weather_data f env).1 = none) →
      ∃ st', run_cycles f i envs st = Except.ok st' ∧ st'.metrics = st.metrics := by
  intro envs
  induction envs with
  | nil => exact fun st _ => ⟨st, rfl, rfl⟩
  | cons env rest ih =>
      intro st hall
      have hf : (fetch_weather_data f env).1 = none := hall env (by simp)
      obtain ⟨st', hst', hm⟩ := ih ⟨st.metrics,
          (st.logs ++ (fetch_weather_data f env).2) ++ [LogEntry.warningFailed]⟩
        (fun e he => hall e (by simp [he]))
      exact ⟨st', by rw [run_cycles, run_cycle_fetch_none hn hf]; exact hst', hm⟩

/-! ### Concrete inputs used to exercise the definitions -/

/-- A concrete fetcher configuration. -/
def demoFetcher : WeatherDataFetcher :=
  ⟨"secret-key", "https://api.openweathermap.org/data/2.5/weather", "Berlin", "DE"⟩

/-- The entries of a concrete, fully valid provider response without
`rain`/`snow`. -/
def demoFields : List (String × Json) :=
  [("main", Json.obj [("temp", Json.num 5), ("humidity", Json.num 80),
      ("pressure", Json.num 1012), ("feels_like", Json.num 3)]),
   ("wind", Json.obj [("speed", Json.num 4), ("deg", Json.num 180)]),
   ("visibility", Json.num 10000),
   ("clouds", Json.obj [("all", Json.num 75)]),
   ("sys", Json.obj [("sunrise", Json.num 1700000000), ("sunset", Json.num 1700040000)])]

/-- A concrete, fully valid provider response without `rain`/`snow`. -/
def demoData : Json :=
  Json.obj demoFields

/-- The sample the fetcher builds from `demoData`. -/
def demoSample : List (String × Json) :=
  sampleList (Json.num 5) (Json.num 80) (Json.num 1012) (Json.num 4) (Json.num 3)
    (Json.num 10000) (Json.num 180) (Json.num 75) (Json.num 0) (Json.num 0)
    (Json.num 1700000000) (Json.num 1700040000)

/-- Sanity: the pipeline maps `demoData` to `demoSample`. -/
theorem extract_demoData : extract_sample demoData = Except.ok demoSample := rfl

/-! ### Claims -/

/-- C1: for every sample carrying the ten published fields, `update_metrics`
raises nothing and overwrites each of the ten gauges — temperature,
humidity, pressure, wind_speed, wind_direction, clouds, visibility, rain,
snow, feels_like — at the configured city label with the corresponding
field of the sample, whatever the gauges held before (pure last-value-wins
overwrite, no aggregation). -/
theorem claim1_publish_overwrites_all_gauges
    (m : PrometheusMetrics) (d : List (String × Json))
    (t hu p ws wd cl vis r s fl : Json)
    (h1 : d.lookup "temperature" = some t) (h2 : d.lookup "humidity" = some hu)
    (h3 : d.lookup "pressure" = some p) (h4 : d.lookup "wind_speed" = some ws)
    (h5 : d.lookup "wind_direction" = some wd) (h6 : d.lookup "clouds" = some cl)
    (h7 : d.lookup "visibility" = some vis) (h8 : d.lookup "rain_1h" = some r)
    (h9 : d.lookup "snow_1h" = some s) (h10 : d.lookup "feels_like" = some fl) :
    (update_metrics m d).2 = none ∧
    (update_metrics m d).1.temperature_gauge m.city = some t ∧
    (update_metrics m d).1.humidity_gauge m.city = some hu ∧
    (update_metrics m d).1.pressure_gauge m.city = some p ∧
    (update_metrics m d).1.wind_speed_gauge m.city = some ws ∧
    (update_metrics m d).1.wind_direction_gauge m.city = some wd ∧
    (update_metrics m d).1.clouds_gauge m.city = some cl ∧
    (update_metrics m d).1.visibility_gauge m.city = some vis ∧
    (update_metrics m d).1.rain_gauge m.city = some r ∧
    (update_metrics m d).1.snow_gauge m.city = some s ∧
    (update_metrics m d).1.feels_like_gauge m.city = some fl := by
  simp [update_metrics, setGaugeStep, dictGet, h1, h2, h3, h4, h5, h6, h7, h8, h9, h10,
    gaugeSet]

/-- Witness for C1 at a concrete registry and sample. -/
theorem claim1_witness :
    (update_metrics (PrometheusMetrics.init "Berlin") demoSample).2 = none ∧
    (update_metrics (PrometheusMetrics.init "Berlin") demoSample).1.temperature_gauge
      (PrometheusMetrics.init "Berlin").city = some (Json.num 5) ∧
    (update_metrics (PrometheusMetrics.init "Berlin") demoSample).1.humidity_gauge
      (PrometheusMetrics.init "Berlin").city = some (Json.num 80) ∧
    (update_metrics (PrometheusMetrics.init "Berlin") demoSample).1.pressure_gauge
      (PrometheusMetrics.init "Berlin").city = some (Json.num 1012) ∧
    (update_metrics (PrometheusMetrics.init "Berlin") demoSample).1.wind_speed_gauge
      (PrometheusMetrics.init "Berlin").city = some (Json.num 4) ∧
    (update_metrics (PrometheusMetrics.init "Berlin") demoSample).1.wind_direction_gauge
      (PrometheusMetrics.init "Berlin").city = some (Json.num 180) ∧
    (update_metrics (PrometheusMetrics.init "Berlin") demoSample).1.clouds_gauge
      (PrometheusMetrics.init "Berlin").city = some (Json.num 75) ∧
    (update_metrics (PrometheusMetrics.init "Berlin") demoSample).1.visibility_gauge
      (PrometheusMetrics.init "Berlin").city = some (Json.num 10000) ∧
    (update_metrics (PrometheusMetrics.init "Berlin") demoSample).1.rain_gauge
      (PrometheusMetrics.init "Berlin").city = some (Json.num 0) ∧
    (update_metrics (PrometheusMetrics.init "Berlin") demoSample).1.snow_gauge
      (PrometheusMetrics.init "Berlin").city = some (Json.num 0) ∧
    (update_metrics (PrometheusMetrics.init "Berlin") demoSample).1.feels_like_gauge
      (PrometheusMetrics.init "Berlin").city = some (Json.num 3) :=
  claim1_publish_overwrites_all_gauges (PrometheusMetrics.init "Berlin") demoSample
    _ _ _ _ _ _ _ _ _ _ rfl rfl rfl rfl rfl rfl rfl rfl rfl rfl

/-- C5: a cycle whose fetch returns `None` does not invoke `update_metrics`:
its gauges are exactly the gauges before the cycle, the cycle's only effect
is appending the fetch's ERROR entry and the WARNING entry to the log, and
the loop continues (sleeping the configured interval). -/
theorem claim5_failed_cycle_preserves_gauges
    (f : WeatherDataFetcher) (i : String) (env : HttpEvent) (st : MonitorState)
    (n : Int) (hn : sleep_interval i = Except.ok n)
    (hfail : (fetch_weather_data f env).1 = none) :
    run_cycle f i env st =
      Except.ok (⟨st.metrics,
        (st.logs ++ (fetch_weather_data f env).2) ++ [LogEntry.warningFailed]⟩, n) :=
  run_cycle_fetch_none hn hfail

/-- Witness for C5: a timed-out cycle leaves the cold gauges cold. -/
theorem claim5_witness :
    run_cycle demoFetcher "60" (HttpEvent.networkFailure "timed out")
        ⟨PrometheusMetrics.init "Berlin", []⟩ =
      Except.ok (⟨PrometheusMetrics.init "Berlin",
        [LogEntry.error "Failed to fetch weather data: timed out",
         LogEntry.warningFailed]⟩, 60) :=
  claim5_failed_cycle_preserves_gauges demoFetcher "60"
    (HttpEvent.networkFailure "timed out") ⟨PrometheusMetrics.init "Berlin", []⟩ 60 rfl rfl

/-- C7 counterexample: the single GET issued by the fetcher carries no
request timeout at all — `requests.get` is called without a `timeout`
argument — so the "bounded request timeout" part of the claim is false for
this concrete fetcher (whose query parameters are otherwise as claimed). -/
theorem claim7_counterexample :
    (buildRequest demoFetcher).timeout = none ∧
    (buildRequest demoFetcher).params =
      [("q", "Berlin,DE"), ("appid", "secret-key"), ("units", "metric")] :=
  ⟨rfl, rfl⟩

/-- C7 amended: every fetch issues a single synchronous GET to `base_url`
with query parameters `q = "<city>,<country>"`, `appid = api_key`,
`units = "metric"`, and no request timeout (an unresponsive provider can
block the loop); the fetch performs no internal retries. -/
theorem claim7_amended_request_has_no_timeout (f : WeatherDataFetcher) :
    buildRequest f =
      ⟨f.base_url,
       [("q", f.city ++ "," ++ f.country), ("appid", f.api_key), ("units", "metric")],
       none⟩ := rfl

/-- C8: with a well-formed scrape interval, every iteration of the `Running`
loop performs exactly fetch → (publish + INFO | WARNING) → sleep, and no
sequence of fetch outcomes can make the loop exit: `run_cycles` always
returns `Except.ok`. -/
theorem claim8_loop_cycle_behavior (f : WeatherDataFetcher) (i : String) (n : Int)
    (hn : sleep_interval i = Except.ok n) :
    (∀ (env : HttpEvent) (st : MonitorState),
      ((fetch_weather_data f env).1 = none →
        run_cycle f i env st =
          Except.ok (⟨st.metrics,
            (st.logs ++ (fetch_weather_data f env).2) ++ [LogEntry.warningFailed]⟩, n)) ∧
      (∀ d, (fetch_weather_data f env).1 = some d →
        run_cycle f i env st =
          Except.ok (⟨(update_metrics st.metrics d).1,
            (st.logs ++ (fetch_weather_data f env).2) ++ [LogEntry.infoFetched d]⟩, n))) ∧
    (∀ (envs : List HttpEvent) (st : MonitorState),
      ∃ st', run_cycles f i envs st = Except.ok st') :=
  ⟨fun _ _ => ⟨fun h => run_cycle_fetch_none hn h, fun _ h => run_cycle_fetch_some hn h⟩,
   run_cycles_no_crash hn⟩

/-- Witness for C8: one failing and one succeeding cycle, run concretely. -/
theorem claim8_witness :
    run_cycle demoFetcher "60" (HttpEvent.response 200 (Except.ok demoData))
        ⟨PrometheusMetrics.init "Berlin", []⟩ =
      Except.ok (⟨(update_metrics (PrometheusMetrics.init "Berlin") demoSample).1,
        [LogEntry.infoFetched demoSample]⟩, 60) ∧
    ∃ st', run_cycles demoFetcher "60"
        [HttpEvent.networkFailure "timed out",
         HttpEvent.response 200 (Except.ok demoData)]
        ⟨PrometheusMetrics.init "Berlin", []⟩ = Except.ok st' :=
  ⟨((claim8_loop_cycle_behavior demoFetcher "60" 60 rfl).1
      (HttpEvent.response 200 (Except.ok demoData))
      ⟨PrometheusMetrics.init "Berlin", []⟩).2 demoSample rfl,
   (claim8_loop_cycle_behavior demoFetcher "60" 60 rfl).2
      [HttpEvent.networkFailure "timed out",
       HttpEvent.response 200 (Except.ok demoData)]
      ⟨PrometheusMetrics.init "Berlin", []⟩⟩

/-- The failure conditions `fetch_weather_data` actually turns into `None`:
a network failure, a 4xx/5xx status (the ones `raise_for_status` raises
for), a JSON parse failure, or a missing required response field. -/
def fetchFailureCondition : HttpEvent → Prop
  | .networkFailure _ => True
  | .response status body =>
      (400 ≤ status ∧ status < 600) ∨
      (∃ e, body = Except.error e) ∨
      (∃ data e, body = Except.ok data ∧ extract_sample data = Except.error e)

/-- C2 counterexample: a non-2xx status is not by itself a failure. A final
status of 300 passes `raise_for_status` (which only raises for 4xx/5xx), so
with a parseable, complete body the fetch returns a sample and logs no
ERROR entry — contradicting "every non-2xx status yields None and one ERROR
log". -/
theorem claim2_counterexample :
    ¬ (200 ≤ 300 ∧ 300 < 300) ∧
    fetch_weather_data demoFetcher (HttpEvent.response 300 (Except.ok demoData)) =
      (some demoSample, []) :=
  ⟨by decide, rfl⟩

/-- C2 amended: on a network failure, a 4xx/5xx status, a JSON parse
failure, or a missing required response field, `fetch_weather_data` returns
`None` instead of raising, and appends exactly one ERROR entry carrying the
underlying cause; the loop (and process) survives. -/
theorem claim2_amended_fetch_failures_yield_none_and_one_error
    (f : WeatherDataFetcher) (env : HttpEvent) (h : fetchFailureCondition env) :
    ∃ cause, fetch_weather_data f env =
      (none, [LogEntry.error ("Failed to fetch weather data: " ++ cause)]) := by
  cases env with
  | networkFailure msg => exact ⟨msg, rfl⟩
  | response status body =>
      cases hrs : raise_for_status status with
      | error e =>
          exact ⟨e, by unfold fetch_weather_data; dsimp only; rw [hrs]⟩
      | ok u =>
          rcases h with hst | ⟨e, hbody⟩ | ⟨data, e, hbody, hex⟩
          · exact absurd hrs (by unfold raise_for_status; rw [if_pos hst]; simp)
          · subst hbody
            exact ⟨e, by unfold fetch_weather_data; dsimp only; rw [hrs]⟩
          · subst hbody
            exact ⟨e, by unfold fetch_weather_data; dsimp only; rw [hrs]; dsimp only; rw [hex]⟩

/-- Witness for C2 at a concrete network failure. -/
theorem claim2_witness :
    ∃ cause, fetch_weather_data demoFetcher (HttpEvent.networkFailure "connection refused") =
      (none, [LogEntry.error ("Failed to fetch weather data: " ++ cause)]) :=
  claim2_amended_fetch_failures_yield_none_and_one_error demoFetcher
    (HttpEvent.networkFailure "connection refused") trivial

/-- A successful (non-4xx/5xx) response whose body extracts cleanly yields
exactly the extracted sample and no log entry. -/
theorem fetch_success_of_extract {f : WeatherDataFetcher} {status : Nat} {data : Json}
    {sample : List (String × Json)} (hst : ¬(400 ≤ status ∧ status < 600))
    (hex : extract_sample data = Except.ok sample) :
    fetch_weather_data f (HttpEvent.response status (Except.ok data)) = (some sample, []) := by
  have hrs : raise_for_status status = Except.ok () := by
    unfold raise_for_status
    rw [if_neg hst]
  unfold fetch_weather_data
  dsimp only
  rw [hrs]
  dsimp only
  rw [hex]

/-- Field-by-field characterisation of a successful extraction: the sample
is assembled from exactly the named response fields, unchanged. -/
theorem extract_sample_of_fields
    {data main wind clouds sys rainObj snowObj : Json}
    {t hu p ws fl vis wd cl r s sr ss : Json}
    (hmain : data.getKey "main" = Except.ok main)
    (ht : main.getKey "temp" = Except.ok t)
    (hhu : main.getKey "humidity" = Except.ok hu)
    (hp : main.getKey "pressure" = Except.ok p)
    (hfl : main.getKey "feels_like" = Except.ok fl)
    (hwind : data.getKey "wind" = Except.ok wind)
    (hws : wind.getKey "speed" = Except.ok ws)
    (hwd : wind.getKey "deg" = Except.ok wd)
    (hvis : data.getKey "visibility" = Except.ok vis)
    (hclouds : data.getKey "clouds" = Except.ok clouds)
    (hcl : clouds.getKey "all" = Except.ok cl)
    (hrainObj : data.getDefault "rain" (Json.obj []) = Except.ok rainObj)
    (hr1 : rainObj.getDefault "1h" (Json.num 0) = Except.ok r)
    (hsnowObj : data.getDefault "snow" (Json.obj []) = Except.ok snowObj)
    (hs1 : snowObj.getDefault "1h" (Json.num 0) = Except.ok s)
    (hsys : data.getKey "sys" = Except.ok sys)
    (hsr : sys.getKey "sunrise" = Except.ok sr)
    (hss : sys.getKey "sunset" = Except.ok ss) :
    extract_sample data = Except.ok (sampleList t hu p ws fl vis wd cl r s sr ss) := by
  simp only [extract_sample, Bind.bind, Except.bind, hmain, ht, hhu, hp, hfl, hwind, hws,
    hwd, hvis, hclouds, hcl, hrainObj, hr1, hsnowObj, hs1, hsys, hsr, hss, pure, Except.pure]

/-- C3: for every valid response body containing the required fields, the
sample the fetcher returns is a pure function of the response: temperature
is `main.temp`, humidity `main.humidity`, pressure `main.pressure`,
feels_like `main.feels_like`, wind_speed `wind.speed`, wind_direction
`wind.deg`, visibility the top-level `visibility`, clouds `clouds.all`,
sunrise `sys.sunrise`, sunset `sys.sunset` — each value passed through
unchanged, with no unit or scale conversion. -/
theorem claim3_sample_is_pure_function_of_response
    (f : WeatherDataFetcher) (data main wind clouds sys rainObj snowObj : Json)
    (t hu p ws fl vis wd cl r s sr ss : Json)
    (hmain : data.getKey "main" = Except.ok main)
    (ht : main.getKey "temp" = Except.ok t)
    (hhu : main.getKey "humidity" = Except.ok hu)
    (hp : main.getKey "pressure" = Except.ok p)
    (hfl : main.getKey "feels_like" = Except.ok fl)
    (hwind : data.getKey "wind" = Except.ok wind)
    (hws : wind.getKey "speed" = Except.ok ws)
    (hwd : wind.getKey "deg" = Except.ok wd)
    (hvis : data.getKey "visibility" = Except.ok vis)
    (hclouds : data.getKey "clouds" = Except.ok clouds)
    (hcl : clouds.getKey "all" = Except.ok cl)
    (hrainObj : data.getDefault "rain" (Json.obj []) = Except.ok rainObj)
    (hr1 : rainObj.getDefault "1h" (Json.num 0) = Except.ok r)
    (hsnowObj : data.getDefault "snow" (Json.obj []) = Except.ok snowObj)
    (hs1 : snowObj.getDefault "1h" (Json.num 0) = Except.ok s)
    (hsys : data.getKey "sys" = Except.ok sys)
    (hsr : sys.getKey "sunrise" = Except.ok sr)
    (hss : sys.getKey "sunset" = Except.ok ss) :
    fetch_weather_data f (HttpEvent.response 200 (Except.ok data)) =
      (some (sampleList t hu p ws fl vis wd cl r s sr ss), []) :=
  fetch_success_of_extract (by decide)
    (extract_sample_of_fields hmain ht hhu hp hfl hwind hws hwd hvis hclouds hcl
      hrainObj hr1 hsnowObj hs1 hsys hsr hss)

/-- Witness for C3 at the concrete response `demoData`. -/
theorem claim3_witness :
    fetch_weather_data demoFetcher (HttpEvent.response 200 (Except.ok demoData)) =
      (some demoSample, []) :=
  claim3_sample_is_pure_function_of_response demoFetcher demoData
    (Json.obj [("temp", Json.num 5), ("humidity", Json.num 80),
      ("pressure", Json.num 1012), ("feels_like", Json.num 3)])
    (Json.obj [("speed", Json.num 4), ("deg", Json.num 180)])
    (Json.obj [("all", Json.num 75)])
    (Json.obj [("sunrise", Json.num 1700000000), ("sunset", Json.num 1700040000)])
    (Json.obj []) (Json.obj [])
    (Json.num 5) (Json.num 80) (Json.num 1012) (Json.num 4) (Json.num 3)
    (Json.num 10000) (Json.num 180) (Json.num 75) (Json.num 0) (Json.num 0)
    (Json.num 1700000000) (Json.num 1700040000)
    rfl rfl rfl rfl rfl rfl rfl rfl rfl rfl rfl rfl rfl rfl rfl rfl rfl rfl

/-- Absence of `key.1h` from the response: either the response has no
`key` entry at all, or it has one that is an object without an `"1h"`
entry. -/
def optionalMissing (fields : List (String × Json)) (key : String) : Prop :=
  fields.lookup key = none ∨
  ∃ sub, fields.lookup key = some (Json.obj sub) ∧ sub.lookup "1h" = none

/-- When the optional `key.1h` is absent, the two-step
`data.get(key, \x7b\x7d).get("1h", 0)` fallback yields `0`. -/
theorem optional_chain_zero {fields : List (String × Json)} {key : String}
    {o v : Json} (ho : (Json.obj fields).getDefault key (Json.obj []) = Except.ok o)
    (hv : o.getDefault "1h" (Json.num 0) = Except.ok v)
    (hm : optionalMissing fields key) : v = Json.num 0 := by
  rcases hm with hnone | ⟨sub, hsome, h1⟩
  · have ho' : o = Json.obj [] := by
      rw [Json.getDefault, hnone] at ho
      exact (Except.ok.injEq _ _).mp ho.symm
    subst ho'
    rw [Json.getDefault] at hv
    simpa using hv.symm
  · have ho' : o = Json.obj sub := by
      rw [Json.getDefault, hsome] at ho
      exact (Except.ok.injEq _ _).mp ho.symm
    subst ho'
    rw [Json.getDefault, h1] at hv
    simpa using hv.symm

/-- C4: an otherwise-valid response in which `rain.1h` and/or `snow.1h` is
absent still fetches successfully — absence of the optional precipitation
fields is never a fetch failure — and the sample's `rain_1h` / `snow_1h`
entry is `0` for whichever of the two is absent. -/
theorem claim4_missing_precipitation_defaults_to_zero
    (f : WeatherDataFetcher) (fields : List (String × Json))
    (main wind clouds sys rainObj snowObj : Json)
    (t hu p ws fl vis wd cl r s sr ss : Json)
    (hmain : (Json.obj fields).getKey "main" = Except.ok main)
    (ht : main.getKey "temp" = Except.ok t)
    (hhu : main.getKey "humidity" = Except.ok hu)
    (hp : main.getKey "pressure" = Except.ok p)
    (hfl : main.getKey "feels_like" = Except.ok fl)
    (hwind : (Json.obj fields).getKey "wind" = Except.ok wind)
    (hws : wind.getKey "speed" = Except.ok ws)
    (hwd : wind.getKey "deg" = Except.ok wd)
    (hvis : (Json.obj fields).getKey "visibility" = Except.ok vis)
    (hclouds : (Json.obj fields).getKey "clouds" = Except.ok clouds)
    (hcl : clouds.getKey "all" = Except.ok cl)
    (hrainObj : (Json.obj fields).getDefault "rain" (Json.obj []) = Except.ok rainObj)
    (hr1 : rainObj.getDefault "1h" (Json.num 0) = Except.ok r)
    (hsnowObj : (Json.obj fields).getDefault "snow" (Json.obj []) = Except.ok snowObj)
    (hs1 : snowObj.getDefault "1h" (Json.num 0) = Except.ok s)
    (hsys : (Json.obj fields).getKey "sys" = Except.ok sys)
    (hsr : sys.getKey "sunrise" = Except.ok sr)
    (hss : sys.getKey "sunset" = Except.ok ss) :
    fetch_weather_data f (HttpEvent.response 200 (Except.ok (Json.obj fields))) =
      (some (sampleList t hu p ws fl vis wd cl r s sr ss), []) ∧
    (optionalMissing fields "rain" → r = Json.num 0) ∧
    (optionalMissing fields "snow" → s = Json.num 0) :=
  ⟨fetch_success_of_extract (by decide)
      (extract_sample_of_fields hmain ht hhu hp hfl hwind hws hwd hvis hclouds hcl
        hrainObj hr1 hsnowObj hs1 hsys hsr hss),
   fun hm => optional_chain_zero hrainObj hr1 hm,
   fun hm => optional_chain_zero hsnowObj hs1 hm⟩

/-- Witness for C4: `demoFields` has neither `rain` nor `snow`; the fetch
succeeds and both precipitation entries come out as `0`. -/
theorem claim4_witness :
    fetch_weather_data demoFetcher (HttpEvent.response 200 (Except.ok (Json.obj demoFields))) =
      (some demoSample, []) ∧
    (optionalMissing demoFields "rain" → Json.num 0 = Json.num 0) ∧
    (optionalMissing demoFields "snow" → Json.num 0 = Json.num 0) :=
  claim4_missing_precipitation_defaults_to_zero demoFetcher demoFields
    (Json.obj [("temp", Json.num 5), ("humidity", Json.num 80),
      ("pressure", Json.num 1012), ("feels_like", Json.num 3)])
    (Json.obj [("speed", Json.num 4), ("deg", Json.num 180)])
    (Json.obj [("all", Json.num 75)])
    (Json.obj [("sunrise", Json.num 1700000000), ("sunset", Json.num 1700040000)])
    (Json.obj []) (Json.obj [])
    (Json.num 5) (Json.num 80) (Json.num 1012) (Json.num 4) (Json.num 3)
    (Json.num 10000) (Json.num 180) (Json.num 75) (Json.num 0) (Json.num 0)
    (Json.num 1700000000) (Json.num 1700040000)
    rfl rfl rfl rfl rfl rfl rfl rfl rfl rfl rfl rfl rfl rfl rfl rfl rfl rfl

/-- Inversion: a successful section access found the section. -/
theorem sectionGet_ok {cf : ConfigFile} {name : String} {s : List (String × String)}
    (h : sectionGet cf name = Except.ok s) : cf.sections.lookup name = some s := by
  unfold sectionGet at h
  split at h
  · cases h
    assumption
  · cases h

/-- Inversion: a successful key access found the key. -/
theorem keyGet_ok {s : List (String × String)} {k v : String}
    (h : keyGet s k = Except.ok v) : s.lookup k = some v := by
  unfold keyGet at h
  split at h
  · cases h
    assumption
  · cases h

/-- A complete configuration file whose numeric fields are not integers. -/
def badConfigFile : ConfigFile :=
  ⟨[("WeatherAPI", [("api_key", "k"), ("base_url", "u"),
      ("city", "Berlin"), ("country", "DE")]),
    ("Prometheus", [("port", "not-a-port"), ("scrape_interval", "sixty")]),
    ("Logging", [("log_file", "app.log"), ("log_level", "INFO")])]⟩

/-- A complete, fully valid configuration file. -/
def goodConfigFile : ConfigFile :=
  ⟨[("WeatherAPI", [("api_key", "k"), ("base_url", "u"),
      ("city", "Berlin"), ("country", "DE")]),
    ("Prometheus", [("port", "9090"), ("scrape_interval", "60")]),
    ("Logging", [("log_file", "app.log"), ("log_level", "INFO")])]⟩

/-- C6 counterexample: config load does not validate the numeric fields.
With `port = "not-a-port"` and `scrape_interval = "sixty"` — neither of
which parses as an integer — the load still returns a full Configuration:
the claim's "load fails when a numeric field does not parse as an integer"
is false. (The `int()` conversions only happen in `start`.) -/
theorem claim6_counterexample :
    parsePyInt "not-a-port" = none ∧ parsePyInt "sixty" = none ∧
    load_configuration (some badConfigFile) =
      Except.ok ⟨"k", "u", "Berlin", "DE", "not-a-port", "sixty", "app.log", "INFO"⟩ :=
  ⟨rfl, rfl, rfl⟩

/-- C6 amended: config load fails when the file is unreadable (configparser
silently yields no sections, so the first section access raises) and when a
required section or key is missing; no defaults are substituted, no partial
Configuration is returned, and on success every field exactly matches the
source key/value pair. Numeric fields are not validated at load: they stay
raw strings, and their `int()` parse only happens in `start` — the port
before the server starts, the scrape interval at the first sleep. -/
theorem claim6_amended_load_requires_sections_and_keys :
    load_configuration none = Except.error "KeyError: WeatherAPI" ∧
    ∀ (file : Option ConfigFile) (cfg : Configuration),
      load_configuration file = Except.ok cfg →
      ∃ wapi prom lg,
        (readConfigFile file).sections.lookup "WeatherAPI" = some wapi ∧
        (readConfigFile file).sections.lookup "Prometheus" = some prom ∧
        (readConfigFile file).sections.lookup "Logging" = some lg ∧
        wapi.lookup "api_key" = some cfg.api_key ∧
        wapi.lookup "base_url" = some cfg.base_url ∧
        wapi.lookup "city" = some cfg.city ∧
        wapi.lookup "country" = some cfg.country ∧
        prom.lookup "port" = some cfg.port ∧
        prom.lookup "scrape_interval" = some cfg.scrape_interval ∧
        lg.lookup "log_file" = some cfg.log_file ∧
        lg.lookup "log_level" = some cfg.log_level := by
  refine ⟨rfl, ?_⟩
  intro file cfg h
  simp only [load_configuration, except_bind_ok, pure, Except.pure, Except.ok.injEq] at h
  obtain ⟨wapi, hw, prom, hp, lg, hl, ak, hak, bu, hbu, ci, hci, co, hco,
    po, hpo, si, hsi, lf, hlf, ll, hll, hcfg⟩ := h
  subst hcfg
  exact ⟨wapi, prom, lg, sectionGet_ok hw, sectionGet_ok hp, sectionGet_ok hl,
    keyGet_ok hak, keyGet_ok hbu, keyGet_ok hci, keyGet_ok hco,
    keyGet_ok hpo, keyGet_ok hsi, keyGet_ok hlf, keyGet_ok hll⟩

/-- Witness for C6 (amended) at the concrete valid file. -/
theorem claim6_witness :
    load_configuration none = Except.error "KeyError: WeatherAPI" ∧
    ∃ wapi prom lg,
      (readConfigFile (some goodConfigFile)).sections.lookup "WeatherAPI" = some wapi ∧
      (readConfigFile (some goodConfigFile)).sections.lookup "Prometheus" = some prom ∧
      (readConfigFile (some goodConfigFile)).sections.lookup "Logging" = some lg ∧
      wapi.lookup "api_key" = some "k" ∧
      wapi.lookup "base_url" = some "u" ∧
      wapi.lookup "city" = some "Berlin" ∧
      wapi.lookup "country" = some "DE" ∧
      prom.lookup "port" = some "9090" ∧
      prom.lookup "scrape_interval" = some "60" ∧
      lg.lookup "log_file" = some "app.log" ∧
      lg.lookup "log_level" = some "INFO" :=
  ⟨claim6_amended_load_requires_sections_and_keys.1,
   claim6_amended_load_requires_sections_and_keys.2 (some goodConfigFile)
     ⟨"k", "u", "Berlin", "DE", "9090", "60", "app.log", "INFO"⟩ rfl⟩

/-- C9: the registry built at startup has every gauge unset at every label,
and as long as every cycle's fetch fails, no operation of the monitor —
server start, logging, failed cycles — sets any gauge: a scrape strictly
before the first successful publish observes exactly that cold initial
state. -/
theorem claim9_cold_metricset_before_first_publish
    (city port i : String) (p n : Int) (f : WeatherDataFetcher) (envs : List HttpEvent)
    (hp : parsePyInt port = some p) (hn : sleep_interval i = Except.ok n)
    (hall : ∀ env ∈ envs, (fetch_weather_data f env).1 = none) :
    (∀ label,
      (PrometheusMetrics.init city).temperature_gauge label = none ∧
      (PrometheusMetrics.init city).humidity_gauge label = none ∧
      (PrometheusMetrics.init city).pressure_gauge label = none ∧
      (PrometheusMetrics.init city).wind_speed_gauge label = none ∧
      (PrometheusMetrics.init city).wind_direction_gauge label = none ∧
      (PrometheusMetrics.init city).clouds_gauge label = none ∧
      (PrometheusMetrics.init city).visibility_gauge label = none ∧
      (PrometheusMetrics.init city).rain_gauge label = none ∧
      (PrometheusMetrics.init city).snow_gauge label = none ∧
      (PrometheusMetrics.init city).feels_like_gauge label = none) ∧
    monitor_start city port =
      Except.ok ⟨PrometheusMetrics.init city, [LogEntry.infoServerStarted p]⟩ ∧
    ∃ stN,
      run_cycles f i envs ⟨PrometheusMetrics.init city, [LogEntry.infoServerStarted p]⟩ =
        Except.ok stN ∧
      stN.metrics = PrometheusMetrics.init city := by
  refine ⟨fun label => ⟨rfl, rfl, rfl, rfl, rfl, rfl, rfl, rfl, rfl, rfl⟩, ?_, ?_⟩
  · unfold monitor_start
    rw [hp]
  · exact run_cycles_frame hn envs
      ⟨PrometheusMetrics.init city, [LogEntry.infoServerStarted p]⟩ hall

/-- Witness for C9: two failing cycles (a network timeout and a 500) after
a concrete startup. -/
theorem claim9_witness :
    (∀ label,
      (PrometheusMetrics.init "Berlin").temperature_gauge label = none ∧
      (PrometheusMetrics.init "Berlin").humidity_gauge label = none ∧
      (PrometheusMetrics.init "Berlin").pressure_gauge label = none ∧
      (PrometheusMetrics.init "Berlin").wind_speed_gauge label = none ∧
      (PrometheusMetrics.init "Berlin").wind_direction_gauge label = none ∧
      (PrometheusMetrics.init "Berlin").clouds_gauge label = none ∧
      (PrometheusMetrics.init "Berlin").visibility_gauge label = none ∧
      (PrometheusMetrics.init "Berlin").rain_gauge label = none ∧
      (PrometheusMetrics.init "Berlin").snow_gauge label = none ∧
      (PrometheusMetrics.init "Berlin").feels_like_gauge label = none) ∧
    monitor_start "Berlin" "9090" =
      Except.ok ⟨PrometheusMetrics.init "Berlin", [LogEntry.infoServerStarted 9090]⟩ ∧
    ∃ stN,
      run_cycles demoFetcher "60"
          [HttpEvent.networkFailure "timed out",
           HttpEvent.response 500 (Except.error "no body")]
          ⟨PrometheusMetrics.init "Berlin", [LogEntry.infoServerStarted 9090]⟩ =
        Except.ok stN ∧
      stN.metrics = PrometheusMetrics.init "Berlin" :=
  claim9_cold_metricset_before_first_publish "Berlin" "9090" "60" 9090 60 demoFetcher
    [HttpEvent.networkFailure "timed out", HttpEvent.response 500 (Except.error "no body")]
    rfl rfl (by intro env h; fin_cases h <;> rfl)

/-- The ten sample keys `update_metrics` reads, in the order it reads them. -/
def requiredSampleKeys : List String :=
  ["temperature", "humidity", "pressure", "wind_speed", "wind_direction",
   "clouds", "visibility", "rain_1h", "snow_1h", "feels_like"]

/-- A gauge-update line only looks at its own key of the sample dict. -/
theorem setGaugeStep_congr {d1 d2 : List (String × Json)} {key : String}
    (hk : dictGet d1 key = dictGet d2 key)
    (upd : PrometheusMetrics → Json → PrometheusMetrics)
    (acc : PrometheusMetrics × Option String) :
    setGaugeStep d1 key upd acc = setGaugeStep d2 key upd acc := by
  obtain ⟨m, err⟩ := acc
  cases err <;> simp [setGaugeStep, hk]

/-- C10: publishing a fetched sample never raises a missing-key error —
every fetched sample carries the ten keys `update_metrics` reads (and also
carries `sunrise`/`sunset`) — and `update_metrics` reads only those ten
keys: two samples agreeing on them (in particular, ones differing in
`sunrise`/`sunset`) produce identical gauge updates, so the carried
`sunrise`/`sunset` values are never published to any gauge. -/
theorem claim10_publish_reads_only_ten_keys :
    (∀ (f : WeatherDataFetcher) (env : HttpEvent) (m : PrometheusMetrics)
        (d : List (String × Json)),
      (fetch_weather_data f env).1 = some d →
      (update_metrics m d).2 = none ∧
      d.lookup "sunrise" ≠ none ∧ d.lookup "sunset" ≠ none) ∧
    (∀ (m : PrometheusMetrics) (d1 d2 : List (String × Json)),
      (∀ k ∈ requiredSampleKeys, d1.lookup k = d2.lookup k) →
      update_metrics m d1 = update_metrics m d2) := by
  constructor
  · intro f env m d h
    obtain ⟨t, hu, p, ws, fl, vis, wd, cl, r, s, sr, ss, hd⟩ := fetch_some_shape h
    subst hd
    refine ⟨?_, ?_, ?_⟩
    · rw [update_metrics_sample]
    · simp [sampleList, List.lookup]
    · simp [sampleList, List.lookup]
  · intro m d1 d2 h
    have hk : ∀ k ∈ requiredSampleKeys, dictGet d1 k = dictGet d2 k := by
      intro k hkmem
      unfold dictGet
      rw [h k hkmem]
    simp only [update_metrics,
      setGaugeStep_congr (hk "temperature" (by simp [requiredSampleKeys])),
      setGaugeStep_congr (hk "humidity" (by simp [requiredSampleKeys])),
      setGaugeStep_congr (hk "pressure" (by simp [requiredSampleKeys])),
      setGaugeStep_congr (hk "wind_speed" (by simp [requiredSampleKeys])),
      setGaugeStep_congr (hk "wind_direction" (by simp [requiredSampleKeys])),
      setGaugeStep_congr (hk "clouds" (by simp [requiredSampleKeys])),
      setGaugeStep_congr (hk "visibility" (by simp [requiredSampleKeys])),
      setGaugeStep_congr (hk "rain_1h" (by simp [requiredSampleKeys])),
      setGaugeStep_congr (hk "snow_1h" (by simp [requiredSampleKeys])),
      setGaugeStep_congr (hk "feels_like" (by simp [requiredSampleKeys]))]

/-- A copy of `demoSample` with different `sunrise`/`sunset` values. -/
def demoSampleShifted : List (String × Json) :=
  sampleList (Json.num 5) (Json.num 80) (Json.num 1012) (Json.num 4) (Json.num 3)
    (Json.num 10000) (Json.num 180) (Json.num 75) (Json.num 0) (Json.num 0)
    (Json.num 1111111111) (Json.num 2222222222)

/-- Witness for C10: the concrete fetched sample publishes cleanly, and
changing only `sunrise`/`sunset` leaves the published gauges identical. -/
theorem claim10_witness :
    ((update_metrics (PrometheusMetrics.init "Berlin") demoSample).2 = none ∧
      demoSample.lookup "sunrise" ≠ none ∧ demoSample.lookup "sunset" ≠ none) ∧
    update_metrics (PrometheusMetrics.init "Berlin") demoSample =
      update_metrics (PrometheusMetrics.init "Berlin") demoSampleShifted :=
  ⟨claim10_publish_reads_only_ten_keys.1 demoFetcher
      (HttpEvent.response 200 (Except.ok demoData))
      (PrometheusMetrics.init "Berlin") demoSample rfl,
   claim10_publish_reads_only_ten_keys.2 (PrometheusMetrics.init "Berlin")
      demoSample demoSampleShifted (by intro k hk; fin_cases hk <;> rfl)⟩

end GrafanaWeatherApp
